import Mathlib

/-
Verification of the background command-execution session manager of
`system.py` (class `comprehensive_terminal_session_manager_with_background_support`).

The Python class keeps two dictionaries keyed by session id (the active map
`active_terminal_sessions` and the bounded archive `completed_session_history`),
a monotonic id counter, and four operations: start, read, terminate, list.
Each operation is embedded below as a pure Lean function on an explicit
manager state.  The parts of the Python code that talk to the outside world
are abstracted as explicit inputs:

* Python dictionaries become association lists `List (Nat × _)`, with
  `lookupA` / `insertA` / `eraseA` / `minKeyA` mirroring `dict.get`,
  `dict[k] = v`, `del dict[k]` and `min(dict.keys())`.
* the subprocess handle, the reader thread and the `queue.Queue` are replaced
  by a `List drain_step` argument: the sequence of results of the
  `queue.get(timeout=0.1)` calls that the drain loop performs before its time
  window expires.  `drain_step.recv item` is a successful `get` (the reader
  thread produced `item`), `drain_step.empty_queue poll` is a `queue.Empty`
  outcome together with the result of `process.poll()` at that moment.
* wall-clock timestamps (`datetime.now()`) become a `Nat` argument `now`,
  measured in whole seconds.
* a raised exception in `subprocess.Popen` (spawn failure) becomes the
  `Option String` argument `spawn_failure`; a raised exception in the
  process-kill sequence of `force_terminate_session_with_cleanup` becomes the
  `Bool` argument `termination_exception`.
-/

/-! ## Association lists standing for the Python dictionaries -/

/-- Lookup in an association list; mirrors `dict.get(k)`. -/
def lookupA {α : Type} : List (Nat × α) → Nat → Option α
  | [], _ => none
  | p :: rest, k => if p.1 = k then some p.2 else lookupA rest k

/-- Remove every binding of key `k`; mirrors `del dict[k]` (keys are unique
in every state we build, so at most one binding is ever removed). -/
def eraseA {α : Type} : List (Nat × α) → Nat → List (Nat × α)
  | [], _ => []
  | p :: rest, k => if p.1 = k then eraseA rest k else p :: eraseA rest k

/-- Insert or overwrite the binding of key `k`; mirrors `dict[k] = v`. -/
def insertA {α : Type} (m : List (Nat × α)) (k : Nat) (v : α) : List (Nat × α) :=
  (k, v) :: eraseA m k

/-- Least key of a nonempty association list; mirrors `min(dict.keys())`. -/
def minKeyA {α : Type} : List (Nat × α) → Nat
  | [] => 0
  | [p] => p.1
  | p :: q :: rest => Nat.min p.1 (minKeyA (q :: rest))

theorem lookupA_insertA_self {α : Type} (m : List (Nat × α)) (k : Nat) (v : α) :
    lookupA (insertA m k v) k = some v := by
  simp [insertA, lookupA]

theorem lookupA_eraseA {α : Type} (m : List (Nat × α)) (k j : Nat) :
    lookupA (eraseA m k) j = if j = k then none else lookupA m j := by
  induction m with
  | nil => simp [eraseA, lookupA]
  | cons p rest ih =>
    by_cases hp : p.1 = k
    · by_cases hj : j = k
      · subst hj
        simp [eraseA, hp, ih]
      · have hkj : ¬ k = j := fun e => hj e.symm
        simp [eraseA, hp, ih, hj, lookupA, hkj]
    · simp only [eraseA, hp, if_neg, lookupA]
      by_cases hpj : p.1 = j
      · have : ¬ j = k := by rw [← hpj]; exact fun e => hp e
        simp [hpj, this]
      · simp [hpj, ih]

theorem lookupA_insertA_ne {α : Type} (m : List (Nat × α)) (k j : Nat) (v : α)
    (h : j ≠ k) : lookupA (insertA m k v) j = lookupA m j := by
  have hkj : ¬ k = j := fun e => h e.symm
  simp [insertA, lookupA, hkj, lookupA_eraseA, h]

theorem eraseA_length_le {α : Type} (m : List (Nat × α)) (k : Nat) :
    (eraseA m k).length ≤ m.length := by
  induction m with
  | nil => simp [eraseA]
  | cons p rest ih =>
    by_cases hp : p.1 = k <;> simp [eraseA, hp] <;> omega

theorem eraseA_length_lt {α : Type} (m : List (Nat × α)) (k : Nat)
    (h : (lookupA m k).isSome = true) : (eraseA m k).length < m.length := by
  induction m with
  | nil => simp [lookupA] at h
  | cons p rest ih =>
    by_cases hp : p.1 = k
    · have := eraseA_length_le rest k
      simp [eraseA, hp]; omega
    · simp [lookupA, hp] at h
      have := ih h
      simp [eraseA, hp]
      omega

theorem minKeyA_cases {α : Type} (p q : Nat × α) (rest : List (Nat × α)) :
    minKeyA (p :: q :: rest) = p.1 ∨ minKeyA (p :: q :: rest) = minKeyA (q :: rest) := by
  simp only [minKeyA, Nat.min_def]
  by_cases h : p.1 ≤ minKeyA (q :: rest) <;> simp [h]

theorem minKeyA_lookupA_isSome {α : Type} (p : Nat × α) (rest : List (Nat × α)) :
    (lookupA (p :: rest) (minKeyA (p :: rest))).isSome = true := by
  induction rest generalizing p with
  | nil => simp [minKeyA, lookupA]
  | cons q rest ih =>
    rcases minKeyA_cases p q rest with h | h
    · rw [h]; simp [lookupA]
    · rw [h]
      by_cases hp : p.1 = minKeyA (q :: rest)
      · simp [lookupA, hp]
      · simp [lookupA, hp]
        exact ih q

theorem minKeyA_le {α : Type} (m : List (Nat × α)) (k : Nat)
    (h : (lookupA m k).isSome = true) : minKeyA m ≤ k := by
  induction m with
  | nil => simp [lookupA] at h
  | cons p rest ih =>
    by_cases hp : p.1 = k
    · cases rest with
      | nil => simp [minKeyA]; omega
      | cons q rest2 => simp [minKeyA]; omega
    · simp [lookupA, hp] at h
      have hle := ih h
      cases rest with
      | nil => simp [lookupA] at h
      | cons q rest2 =>
        simp [minKeyA] at hle ⊢
        omega

/-! ## Data model

Shallow embedding of the dataclasses of `system.py`.  The fields keep their
Python names.  The `process`, `output_reading_thread` and `output_queue`
fields of the Python session are external handles (subprocess, thread,
queue); they are represented by the `drain_step` schedules passed to the
operations instead of being stored. -/

/-- One item of a session output queue: the tagged tuples (output, line),
(completed, returncode), (error, message) that `output_reader_thread` pushes. -/
inductive output_queue_item : Type
  | output (chunk : String)
  | completed (exit_code : Int)
  | error (message : String)
deriving DecidableEq

/-- One iteration of a drain loop: either `queue.get(timeout=0.1)` yielded an
item, or it raised `queue.Empty` (in which case `poll_result` is what
`process.poll()` returns at that moment: `some rc` when the process has
exited with code `rc`, `none` while it is still running). -/
inductive drain_step : Type
  | recv (item : output_queue_item)
  | empty_queue (poll_result : Option Int)
deriving DecidableEq

/-- Python dataclass `terminal_session_with_process_tracking`. -/
structure terminal_session_with_process_tracking : Type where
  process_id : Nat
  accumulated_output_buffer : String
  newly_available_output_since_last_read : String
  command_execution_has_completed : Bool
  session_creation_timestamp : Nat
  last_exit_code : Option Int
deriving DecidableEq

/-- Python dataclass `completed_terminal_session_with_full_history`. -/
structure completed_terminal_session_with_full_history : Type where
  process_id : Nat
  complete_output_text : String
  final_exit_code : Option Int
  session_start_time : Nat
  session_end_time : Nat
deriving DecidableEq

/-- Python dataclass `command_execution_result_with_background_support`.
`process_id` is an `Int` because the spawn-failure result uses `-1` as a
sentinel id. -/
structure command_execution_result_with_background_support : Type where
  process_id : Int
  initial_output_text : String
  command_is_still_running_in_background : Bool
  error_message : Option String
deriving DecidableEq

/-- The manager state: the fields of
`comprehensive_terminal_session_manager_with_background_support.__init__`. -/
structure comprehensive_terminal_session_manager_with_background_support : Type where
  active_terminal_sessions : List (Nat × terminal_session_with_process_tracking)
  completed_session_history : List (Nat × completed_terminal_session_with_full_history)
  next_session_id : Nat
  maximum_completed_sessions_to_retain : Nat
deriving DecidableEq

abbrev Manager : Type := comprehensive_terminal_session_manager_with_background_support

/-- The state built by `__init__`: empty maps, counter 1, capacity 100. -/
def initial_manager_state : Manager :=
  { active_terminal_sessions := []
    completed_session_history := []
    next_session_id := 1
    maximum_completed_sessions_to_retain := 100 }

/-- How a Python f-string renders an `Optional[int]`: `None` or the number. -/
def python_str_of_optional_int : Option Int → String
  | none => "None"
  | some n => toString n

/-! ## Operations -/

/-- The session object built in `start_...` right after a successful spawn:
empty buffers, not completed, no exit code. -/
def fresh_terminal_session (sid : Nat) (now : Nat) :
    terminal_session_with_process_tracking :=
  { process_id := sid
    accumulated_output_buffer := ""
    newly_available_output_since_last_read := ""
    command_execution_has_completed := false
    session_creation_timestamp := now
    last_exit_code := none }

/-- How the initial drain window of `start_...` ended: normally (timeout,
completed event, or poll observed exit) or via the early return in the
error branch. -/
inductive start_drain_outcome : Type
  | normal
  | errored (message : String)
deriving DecidableEq

/-- The `while time.time() - start_time < timeout_seconds` loop of
`start_command_execution_with_timeout_and_background_support`
(source lines 481-508).  `acc` is the local `initial_output`. -/
def start_drain_loop :
    terminal_session_with_process_tracking → String → List drain_step →
    terminal_session_with_process_tracking × String × start_drain_outcome
  | s, acc, [] => (s, acc, .normal)
  | s, acc, .recv (.output c) :: rest =>
      start_drain_loop
        { s with
          accumulated_output_buffer := s.accumulated_output_buffer ++ c
          newly_available_output_since_last_read :=
            s.newly_available_output_since_last_read ++ c }
        (acc ++ c) rest
  | s, acc, .recv (.completed code) :: _ =>
      ({ s with command_execution_has_completed := true
                last_exit_code := some code }, acc, .normal)
  | s, acc, .recv (.error m) :: _ => (s, acc, .errored m)
  | s, acc, .empty_queue (some rc) :: _ =>
      ({ s with command_execution_has_completed := true
                last_exit_code := some rc }, acc, .normal)
  | s, acc, .empty_queue none :: rest => start_drain_loop s acc rest

/-- `start_command_execution_with_timeout_and_background_support`
(source lines 318-528).  `spawn_failure = some e` models `subprocess.Popen`
raising exception `e` (the `except` block, lines 521-528); on `none` the
spawn succeeded, the id is allocated, the session is registered and the
initial window drains `steps`.  Returns the new state and the result. -/
def start_command_execution_with_timeout_and_background_support
    (st : Manager) (spawn_failure : Option String)
    (steps : List drain_step) (now : Nat) :
    Manager × command_execution_result_with_background_support :=
  match spawn_failure with
  | some e =>
      (st, { process_id := -1
             initial_output_text := ""
             command_is_still_running_in_background := false
             error_message := some ("Failed to execute command: " ++ e) })
  | none =>
      let sid := st.next_session_id
      let r := start_drain_loop (fresh_terminal_session sid now) "" steps
      ({ st with
         next_session_id := sid + 1
         active_terminal_sessions := insertA st.active_terminal_sessions sid r.1 },
       match r.2.2 with
       | .errored m =>
           { process_id := Int.ofNat sid
             initial_output_text := r.2.1
             command_is_still_running_in_background := false
             error_message := some ("Process error: " ++ m) }
       | .normal =>
           { process_id := Int.ofNat sid
             initial_output_text := r.2.1
             command_is_still_running_in_background :=
               !r.1.command_execution_has_completed
             error_message := none })

/-- The `completed_terminal_session_with_full_history` record built by
`_move_session_to_completed` (source lines 677-683). -/
def completed_session_of (session_id now : Nat)
    (s : terminal_session_with_process_tracking) :
    completed_terminal_session_with_full_history :=
  { process_id := session_id
    complete_output_text := s.accumulated_output_buffer
    final_exit_code := s.last_exit_code
    session_start_time := s.session_creation_timestamp
    session_end_time := now }

/-- The retention check of `_move_session_to_completed` (source lines
687-690): when the archive exceeds the limit, delete `min(keys)`. -/
def trim_completed_session_history (retain : Nat)
    (h1 : List (Nat × completed_terminal_session_with_full_history)) :
    List (Nat × completed_terminal_session_with_full_history) :=
  if retain < h1.length then eraseA h1 (minKeyA h1) else h1

/-- `_move_session_to_completed` (source lines 670-693): snapshot the active
session into the archive, evict `min(keys)` if the archive now exceeds the
retention limit, and delete the active entry. -/
def move_session_to_completed (st : Manager) (session_id : Nat) (now : Nat) :
    Manager :=
  match lookupA st.active_terminal_sessions session_id with
  | none => st
  | some s =>
      { st with
        completed_session_history :=
          trim_completed_session_history st.maximum_completed_sessions_to_retain
            (insertA st.completed_session_history session_id
              (completed_session_of session_id now s))
        active_terminal_sessions := eraseA st.active_terminal_sessions session_id }

/-- How the blocking loop of `read_new_output_from_session_with_timeout`
ended (source lines 557-589). -/
inductive read_drain_end : Type
  | got_output
  | completed_event (exit_code : Int)
  | error_event (message : String)
  | completed_flag
  | timed_out
deriving DecidableEq

/-- The `while time.time() - start_time < timeout_seconds` loop of
`read_new_output_from_session_with_timeout` (source lines 557-589).
`acc` is the local `new_output`.  Output events append to the accumulated
buffer only (not to the pending buffer); the `queue.Empty` branch consults
the completed flag but never `process.poll()`. -/
def read_drain_loop :
    terminal_session_with_process_tracking → String → List drain_step →
    terminal_session_with_process_tracking × String × read_drain_end
  | s, acc, [] => (s, acc, .timed_out)
  | s, acc, .recv (.output c) :: rest =>
      let s1 := { s with accumulated_output_buffer := s.accumulated_output_buffer ++ c }
      if acc ++ c = "" then read_drain_loop s1 (acc ++ c) rest
      else (s1, acc ++ c, .got_output)
  | s, acc, .recv (.completed code) :: _ =>
      ({ s with command_execution_has_completed := true
                last_exit_code := some code }, acc, .completed_event code)
  | s, acc, .recv (.error m) :: _ => (s, acc, .error_event m)
  | s, acc, .empty_queue _ :: rest =>
      if s.command_execution_has_completed then (s, acc, .completed_flag)
      else read_drain_loop s acc rest

/-- The string built for an archived session by
`read_new_output_from_session_with_timeout` (source lines 540-543).
The Python code formats the runtime with two decimal places; timestamps in
this model are whole seconds, so the fraction is always `.00`. -/
def completed_session_summary
    (c : completed_terminal_session_with_full_history) : String :=
  "Process completed with exit code " ++ python_str_of_optional_int c.final_exit_code ++
  "\nRuntime: " ++ toString (c.session_end_time - c.session_start_time) ++
  ".00s\nFinal output:\n" ++ c.complete_output_text

/-- `read_new_output_from_session_with_timeout` (source lines 530-592).
Returns the new state and the `(output, timeout_reached)` pair. -/
def read_new_output_from_session_with_timeout
    (st : Manager) (session_id : Nat) (steps : List drain_step) (now : Nat) :
    Manager × (String × Bool) :=
  match lookupA st.active_terminal_sessions session_id with
  | none =>
      match lookupA st.completed_session_history session_id with
      | some c => (st, (completed_session_summary c, false))
      | none => (st, ("No session found for ID " ++ toString session_id, false))
  | some s =>
      if s.newly_available_output_since_last_read = "" then
        match read_drain_loop s "" steps with
        | (s1, acc, .got_output) =>
            ({ st with active_terminal_sessions :=
                  insertA st.active_terminal_sessions session_id s1 },
             (acc, false))
        | (s1, acc, .completed_event code) =>
            let st1 : Manager :=
              { st with active_terminal_sessions :=
                  insertA st.active_terminal_sessions session_id s1 }
            (move_session_to_completed st1 session_id now,
             (if acc = "" then "Process completed with exit code " ++ toString code
              else acc, false))
        | (s1, _, .error_event m) =>
            ({ st with active_terminal_sessions :=
                  insertA st.active_terminal_sessions session_id s1 },
             ("Process error: " ++ m, false))
        | (s1, acc, .completed_flag) =>
            ({ st with active_terminal_sessions :=
                  insertA st.active_terminal_sessions session_id s1 },
             (if acc = "" then
                "Process completed with exit code " ++
                  python_str_of_optional_int s1.last_exit_code
              else acc, false))
        | (s1, acc, .timed_out) =>
            ({ st with active_terminal_sessions :=
                  insertA st.active_terminal_sessions session_id s1 },
             (if acc = "" then "No new output available" else acc, true))
      else
        let s2 : terminal_session_with_process_tracking :=
          { s with newly_available_output_since_last_read := "" }
        ({ st with active_terminal_sessions :=
              insertA st.active_terminal_sessions session_id s2 },
         (s.newly_available_output_since_last_read, false))

/-- `force_terminate_session_with_cleanup` (source lines 594-649).
`termination_exception = true` models an exception raised anywhere in the
kill sequence, caught by the `except` block (lines 647-649), which returns
`False` and leaves the registry untouched. -/
def force_terminate_session_with_cleanup
    (st : Manager) (session_id : Nat) (termination_exception : Bool) (now : Nat) :
    Manager × Bool :=
  match lookupA st.active_terminal_sessions session_id with
  | none => (st, false)
  | some _ =>
      if termination_exception then (st, false)
      else (move_session_to_completed st session_id now, true)

/-- One row of `get_list_of_all_active_sessions_with_status`. -/
structure session_status_entry : Type where
  session_id : Nat
  is_completed : Bool
  runtime_seconds : Nat
  has_new_output : Bool
  total_output_length : Nat
deriving DecidableEq

/-- `get_list_of_all_active_sessions_with_status` (source lines 651-668):
a read-only snapshot of the active map. -/
def get_list_of_all_active_sessions_with_status (st : Manager) (now : Nat) :
    List session_status_entry :=
  st.active_terminal_sessions.map (fun p =>
    { session_id := p.1
      is_completed := p.2.command_execution_has_completed
      runtime_seconds := now - p.2.session_creation_timestamp
      has_new_output := decide (0 < p.2.newly_available_output_since_last_read.length)
      total_output_length := p.2.accumulated_output_buffer.length })

/-! ## Operation-level transition system

Each public operation, run to completion, is one step; `run_manager_operations`
folds a list of such steps from the `__init__` state.  This is the reachable
state space at operation granularity. -/

/-- One invocation of a public operation, with its abstracted environment
inputs (spawn outcome, drain schedule, clock, kill-sequence outcome). -/
inductive manager_operation : Type
  | start_op (spawn_failure : Option String) (steps : List drain_step) (now : Nat)
  | read_op (session_id : Nat) (steps : List drain_step) (now : Nat)
  | terminate_op (session_id : Nat) (termination_exception : Bool) (now : Nat)
  | list_op (now : Nat)

/-- State transformer of one operation (`list` is read-only). -/
def apply_manager_operation (st : Manager) : manager_operation → Manager
  | .start_op e steps now =>
      (start_command_execution_with_timeout_and_background_support st e steps now).1
  | .read_op sid steps now =>
      (read_new_output_from_session_with_timeout st sid steps now).1
  | .terminate_op sid ex now =>
      (force_terminate_session_with_cleanup st sid ex now).1
  | .list_op _ => st

/-- The state after a sequence of operations, starting from `__init__`. -/
def run_manager_operations (ops : List manager_operation) : Manager :=
  ops.foldl apply_manager_operation initial_manager_state

/-! ## Drain-window helper functions and lemmas -/

/-- Concatenation of the output chunks that the start-window loop consumes
from a given schedule before it stops (at a completed event, an error event,
a poll that observed exit, or the end of the window). -/
def start_window_output : List drain_step → String
  | [] => ""
  | .recv (.output c) :: rest => c ++ start_window_output rest
  | .recv (.completed _) :: _ => ""
  | .recv (.error _) :: _ => ""
  | .empty_queue (some _) :: _ => ""
  | .empty_queue none :: rest => start_window_output rest

/-- True when the start-window loop stops before its window expires:
a completed event, an error event, or an empty-queue poll observing exit. -/
def start_window_observed_stop : List drain_step → Bool
  | [] => false
  | .recv (.output _) :: rest => start_window_observed_stop rest
  | .recv (.completed _) :: _ => true
  | .recv (.error _) :: _ => true
  | .empty_queue (some _) :: _ => true
  | .empty_queue none :: rest => start_window_observed_stop rest

/-- True when the start-window loop observes completion: a completed event,
or an empty-queue poll observing exit (the error stop is not completion). -/
def start_window_observed_completion : List drain_step → Bool
  | [] => false
  | .recv (.output _) :: rest => start_window_observed_completion rest
  | .recv (.completed _) :: _ => true
  | .recv (.error _) :: _ => false
  | .empty_queue (some _) :: _ => true
  | .empty_queue none :: rest => start_window_observed_completion rest

/-- True when a schedule contains a completed event anywhere. -/
def drain_steps_contain_completed_event : List drain_step → Bool
  | [] => false
  | .recv (.completed _) :: _ => true
  | _ :: rest => drain_steps_contain_completed_event rest

/-- True when a schedule contains a completed or error event anywhere. -/
def drain_steps_contain_completed_or_error_event : List drain_step → Bool
  | [] => false
  | .recv (.completed _) :: _ => true
  | .recv (.error _) :: _ => true
  | _ :: rest => drain_steps_contain_completed_or_error_event rest

theorem start_drain_loop_output (steps : List drain_step) :
    ∀ (s : terminal_session_with_process_tracking) (acc : String),
    (start_drain_loop s acc steps).2.1 = acc ++ start_window_output steps ∧
    (start_drain_loop s acc steps).1.accumulated_output_buffer =
      s.accumulated_output_buffer ++ start_window_output steps ∧
    (start_drain_loop s acc steps).1.newly_available_output_since_last_read =
      s.newly_available_output_since_last_read ++ start_window_output steps := by
  induction steps with
  | nil => intro s acc; simp [start_drain_loop, start_window_output]
  | cons step rest ih =>
    intro s acc
    match step with
    | .recv (.output c) =>
      have h := ih { s with
          accumulated_output_buffer := s.accumulated_output_buffer ++ c
          newly_available_output_since_last_read :=
            s.newly_available_output_since_last_read ++ c } (acc ++ c)
      simpa [start_drain_loop, start_window_output, String.append_assoc] using h
    | .recv (.completed code) =>
      simp [start_drain_loop, start_window_output]
    | .recv (.error m) =>
      simp [start_drain_loop, start_window_output]
    | .empty_queue (some rc) =>
      simp [start_drain_loop, start_window_output]
    | .empty_queue none =>
      simpa [start_drain_loop, start_window_output] using ih s acc

theorem start_drain_loop_completed (steps : List drain_step) :
    ∀ (s : terminal_session_with_process_tracking) (acc : String),
    (start_drain_loop s acc steps).1.command_execution_has_completed =
      (s.command_execution_has_completed || start_window_observed_completion steps) := by
  induction steps with
  | nil => intro s acc; simp [start_drain_loop, start_window_observed_completion]
  | cons step rest ih =>
    intro s acc
    match step with
    | .recv (.output c) =>
      simpa [start_drain_loop, start_window_observed_completion] using
        ih { s with
          accumulated_output_buffer := s.accumulated_output_buffer ++ c
          newly_available_output_since_last_read :=
            s.newly_available_output_since_last_read ++ c } (acc ++ c)
    | .recv (.completed code) =>
      simp [start_drain_loop, start_window_observed_completion]
    | .recv (.error m) =>
      simp [start_drain_loop, start_window_observed_completion]
    | .empty_queue (some rc) =>
      simp [start_drain_loop, start_window_observed_completion]
    | .empty_queue none =>
      simpa [start_drain_loop, start_window_observed_completion] using ih s acc

/-- The still-running flag that `start_...` derives from the loop result:
`False` on the error early-return, `not completed` otherwise. -/
def start_loop_still_running
    (r : terminal_session_with_process_tracking × String × start_drain_outcome) :
    Bool :=
  match r with
  | (_, _, .errored _) => false
  | (s1, _, .normal) => !s1.command_execution_has_completed

theorem start_drain_loop_still_running (steps : List drain_step) :
    ∀ (s : terminal_session_with_process_tracking) (acc : String),
    s.command_execution_has_completed = false →
    start_loop_still_running (start_drain_loop s acc steps) =
      !(start_window_observed_stop steps) := by
  induction steps with
  | nil =>
    intro s acc h
    simp [start_drain_loop, start_loop_still_running, start_window_observed_stop, h]
  | cons step rest ih =>
    intro s acc h
    match step with
    | .recv (.output c) =>
      simpa [start_drain_loop, start_window_observed_stop] using
        ih { s with
          accumulated_output_buffer := s.accumulated_output_buffer ++ c
          newly_available_output_since_last_read :=
            s.newly_available_output_since_last_read ++ c } (acc ++ c) h
    | .recv (.completed code) =>
      simp [start_drain_loop, start_loop_still_running, start_window_observed_stop]
    | .recv (.error m) =>
      simp [start_drain_loop, start_loop_still_running, start_window_observed_stop]
    | .empty_queue (some rc) =>
      simp [start_drain_loop, start_loop_still_running, start_window_observed_stop]
    | .empty_queue none =>
      simpa [start_drain_loop, start_window_observed_stop] using ih s acc h

theorem string_append_eq_empty {a b : String} (h : a ++ b = "") :
    a = "" ∧ b = "" := by
  have hd : a.data ++ b.data = [] := by
    have := congrArg String.data h
    simpa [String.data_append] using this
  obtain ⟨ha, hb⟩ := List.append_eq_nil.mp hd
  constructor
  · cases a; simp_all
  · cases b; simp_all

theorem read_drain_loop_pending (steps : List drain_step) :
    ∀ (s : terminal_session_with_process_tracking) (acc : String),
    (read_drain_loop s acc steps).1.newly_available_output_since_last_read =
      s.newly_available_output_since_last_read := by
  induction steps with
  | nil => intro s acc; simp [read_drain_loop]
  | cons step rest ih =>
    intro s acc
    match step with
    | .recv (.output c) =>
      by_cases hc : acc ++ c = ""
      · have := ih { s with accumulated_output_buffer := s.accumulated_output_buffer ++ c }
          (acc ++ c)
        simpa [read_drain_loop, hc] using this
      · simp [read_drain_loop, hc]
    | .recv (.completed code) => simp [read_drain_loop]
    | .recv (.error m) => simp [read_drain_loop]
    | .empty_queue poll =>
      by_cases hdone : s.command_execution_has_completed
      · simp [read_drain_loop, hdone]
      · have := ih s acc
        simpa [read_drain_loop, hdone] using this

theorem read_drain_loop_delta (steps : List drain_step) :
    ∀ (s : terminal_session_with_process_tracking) (acc : String),
    ∃ X : String,
      (read_drain_loop s acc steps).2.1 = acc ++ X ∧
      (read_drain_loop s acc steps).1.accumulated_output_buffer =
        s.accumulated_output_buffer ++ X := by
  induction steps with
  | nil =>
    intro s acc
    exact ⟨"", by simp [read_drain_loop]⟩
  | cons step rest ih =>
    intro s acc
    match step with
    | .recv (.output c) =>
      by_cases hc : acc ++ c = ""
      · obtain ⟨ha, hcz⟩ := string_append_eq_empty hc
        subst ha; subst hcz
        obtain ⟨X, h1, h2⟩ :=
          ih { s with accumulated_output_buffer := s.accumulated_output_buffer ++ "" } ""
        refine ⟨X, ?_, ?_⟩
        · simpa [read_drain_loop] using h1
        · simpa [read_drain_loop] using h2
      · exact ⟨c, by simp [read_drain_loop, hc]⟩
    | .recv (.completed code) => exact ⟨"", by simp [read_drain_loop]⟩
    | .recv (.error m) => exact ⟨"", by simp [read_drain_loop]⟩
    | .empty_queue poll =>
      by_cases hdone : s.command_execution_has_completed
      · exact ⟨"", by simp [read_drain_loop, hdone]⟩
      · obtain ⟨X, h1, h2⟩ := ih s acc
        exact ⟨X, by simpa [read_drain_loop, hdone] using h1,
               by simpa [read_drain_loop, hdone] using h2⟩

theorem read_drain_loop_completed_flag (steps : List drain_step) :
    ∀ (s : terminal_session_with_process_tracking) (acc : String),
    s.command_execution_has_completed = false →
    (read_drain_loop s acc steps).1.command_execution_has_completed = true →
    drain_steps_contain_completed_event steps = true := by
  induction steps with
  | nil =>
    intro s acc h hc
    simp [read_drain_loop] at hc
    rw [h] at hc
    exact absurd hc (by simp)
  | cons step rest ih =>
    intro s acc h hc
    match step with
    | .recv (.output c) =>
      by_cases hcc : acc ++ c = ""
      · obtain ⟨ha, hcz⟩ := string_append_eq_empty hcc
        subst ha; subst hcz
        simp [read_drain_loop] at hc
        have := ih { s with accumulated_output_buffer := s.accumulated_output_buffer ++ "" }
          "" h (by simpa using hc)
        simpa [drain_steps_contain_completed_event] using this
      · simp [read_drain_loop, hcc] at hc
        rw [h] at hc
        exact absurd hc (by simp)
    | .recv (.completed code) =>
      simp [drain_steps_contain_completed_event]
    | .recv (.error m) =>
      simp [read_drain_loop] at hc
      rw [h] at hc
      exact absurd hc (by simp)
    | .empty_queue poll =>
      simp [read_drain_loop, h] at hc
      have := ih s acc h hc
      simpa [drain_steps_contain_completed_event] using this

/-! ## Registry invariant and its preservation -/

theorem lookupA_isSome_of_isSome_eraseA {α : Type} (m : List (Nat × α)) (j k : Nat)
    (h : (lookupA (eraseA m j) k).isSome = true) :
    (lookupA m k).isSome = true ∧ ¬ k = j := by
  rw [lookupA_eraseA] at h
  by_cases hkj : k = j
  · simp [hkj] at h
  · exact ⟨by simpa [hkj] using h, hkj⟩

theorem lookupA_isSome_insertA_cases {α : Type} (m : List (Nat × α)) (j k : Nat) (v : α)
    (h : (lookupA (insertA m j v) k).isSome = true) :
    k = j ∨ (lookupA m k).isSome = true := by
  by_cases hkj : k = j
  · exact Or.inl hkj
  · right; rwa [lookupA_insertA_ne m j k v hkj] at h

theorem lookupA_isSome_of_trim (retain : Nat)
    (h1 : List (Nat × completed_terminal_session_with_full_history)) (k : Nat)
    (h : (lookupA (trim_completed_session_history retain h1) k).isSome = true) :
    (lookupA h1 k).isSome = true := by
  unfold trim_completed_session_history at h
  by_cases hcap : retain < h1.length
  · simp only [hcap, if_true] at h
    exact (lookupA_isSome_of_isSome_eraseA h1 (minKeyA h1) k h).1
  · simpa [hcap] using h

theorem trim_insertA_length_le (retain : Nat)
    (m : List (Nat × completed_terminal_session_with_full_history)) (k : Nat)
    (v : completed_terminal_session_with_full_history) (hm : m.length ≤ retain) :
    (trim_completed_session_history retain (insertA m k v)).length ≤ retain := by
  unfold trim_completed_session_history
  by_cases hcap : retain < (insertA m k v).length
  · simp only [hcap, if_true]
    have hsome : (lookupA (insertA m k v) (minKeyA (insertA m k v))).isSome = true := by
      show (lookupA ((k, v) :: eraseA m k) (minKeyA ((k, v) :: eraseA m k))).isSome = true
      exact minKeyA_lookupA_isSome (k, v) (eraseA m k)
    have hlt := eraseA_length_lt (insertA m k v) (minKeyA (insertA m k v)) hsome
    have hle : (insertA m k v).length ≤ m.length + 1 := by
      have := eraseA_length_le m k
      simp [insertA]
      omega
    omega
  · simp only [hcap, if_false]
    omega

/-- The invariant of the registry maps that holds in every reachable state:
the active map and the archive are disjoint, every key is below the id
counter, and the archive stays within its fixed capacity of 100. -/
structure manager_registry_invariant (st : Manager) : Prop where
  disjoint_maps : ∀ k, (lookupA st.active_terminal_sessions k).isSome = true →
      lookupA st.completed_session_history k = none
  active_lt_next : ∀ k, (lookupA st.active_terminal_sessions k).isSome = true →
      k < st.next_session_id
  completed_lt_next : ∀ k, (lookupA st.completed_session_history k).isSome = true →
      k < st.next_session_id
  history_bounded :
      st.completed_session_history.length ≤ st.maximum_completed_sessions_to_retain
  retention_is_100 : st.maximum_completed_sessions_to_retain = 100

theorem initial_manager_state_invariant :
    manager_registry_invariant initial_manager_state := by
  constructor <;> simp [initial_manager_state, lookupA]

theorem move_session_to_completed_preserves (st : Manager) (sid now : Nat)
    (hinv : manager_registry_invariant st) :
    manager_registry_invariant (move_session_to_completed st sid now) := by
  unfold move_session_to_completed
  cases hs : lookupA st.active_terminal_sessions sid with
  | none => exact hinv
  | some s =>
    constructor
    · intro k hk
      obtain ⟨hk1, hkne⟩ := lookupA_isSome_of_isSome_eraseA _ sid k hk
      cases hh : lookupA (trim_completed_session_history
          st.maximum_completed_sessions_to_retain
          (insertA st.completed_session_history sid
            (completed_session_of sid now s))) k with
      | none => rfl
      | some v =>
        exfalso
        have hsome : (lookupA (trim_completed_session_history
            st.maximum_completed_sessions_to_retain
            (insertA st.completed_session_history sid
              (completed_session_of sid now s))) k).isSome = true := by
          rw [hh]; rfl
        have h1 := lookupA_isSome_of_trim _ _ _ hsome
        rcases lookupA_isSome_insertA_cases _ _ _ _ h1 with heq | hold
        · exact hkne heq
        · have := hinv.disjoint_maps k hk1
          rw [this] at hold
          simp at hold
    · intro k hk
      exact hinv.active_lt_next k (lookupA_isSome_of_isSome_eraseA _ sid k hk).1
    · intro k hk
      have h1 := lookupA_isSome_of_trim _ _ _ hk
      rcases lookupA_isSome_insertA_cases _ _ _ _ h1 with heq | hold
      · subst heq
        exact hinv.active_lt_next k (by rw [hs]; rfl)
      · exact hinv.completed_lt_next k hold
    · exact trim_insertA_length_le _ _ _ _ hinv.history_bounded
    · exact hinv.retention_is_100

/-- Replacing the value at a key that is already present in the active map
preserves the invariant (this is what the in-place session mutation of
`start` and the write-back of `read` amount to). -/
theorem insert_present_active_preserves (st : Manager) (sid : Nat)
    (s1 : terminal_session_with_process_tracking)
    (hs : (lookupA st.active_terminal_sessions sid).isSome = true)
    (hinv : manager_registry_invariant st) :
    manager_registry_invariant
      { st with active_terminal_sessions :=
          insertA st.active_terminal_sessions sid s1 } := by
  constructor
  · intro k hk
    rcases lookupA_isSome_insertA_cases _ _ _ _ hk with heq | hold
    · subst heq; exact hinv.disjoint_maps k hs
    · exact hinv.disjoint_maps k hold
  · intro k hk
    rcases lookupA_isSome_insertA_cases _ _ _ _ hk with heq | hold
    · subst heq; exact hinv.active_lt_next k hs
    · exact hinv.active_lt_next k hold
  · exact hinv.completed_lt_next
  · exact hinv.history_bounded
  · exact hinv.retention_is_100

theorem start_preserves (st : Manager) (spawn_failure : Option String)
    (steps : List drain_step) (now : Nat)
    (hinv : manager_registry_invariant st) :
    manager_registry_invariant
      (start_command_execution_with_timeout_and_background_support
        st spawn_failure steps now).1 := by
  cases spawn_failure with
  | some e => exact hinv
  | none =>
    have hstate :
        (start_command_execution_with_timeout_and_background_support
          st none steps now).1 =
        { st with
          next_session_id := st.next_session_id + 1
          active_terminal_sessions :=
            insertA st.active_terminal_sessions st.next_session_id
              (start_drain_loop (fresh_terminal_session st.next_session_id now)
                "" steps).1 } := rfl
    rw [hstate]
    refine ⟨?_, ?_, ?_, ?_, ?_⟩ <;> dsimp only
    · intro k hk
      rcases lookupA_isSome_insertA_cases _ _ _ _ hk with heq | hold
      · cases hh : lookupA st.completed_session_history k with
        | none => rfl
        | some v =>
          exfalso
          have hlt : k < st.next_session_id :=
            hinv.completed_lt_next k (by rw [hh]; rfl)
          omega
      · exact hinv.disjoint_maps k hold
    · intro k hk
      rcases lookupA_isSome_insertA_cases _ _ _ _ hk with heq | hold
      · omega
      · have := hinv.active_lt_next k hold
        omega
    · intro k hk
      have := hinv.completed_lt_next k hk
      omega
    · exact hinv.history_bounded
    · exact hinv.retention_is_100

theorem read_preserves (st : Manager) (sid : Nat)
    (steps : List drain_step) (now : Nat)
    (hinv : manager_registry_invariant st) :
    manager_registry_invariant
      (read_new_output_from_session_with_timeout st sid steps now).1 := by
  unfold read_new_output_from_session_with_timeout
  cases hs : lookupA st.active_terminal_sessions sid with
  | none =>
    cases hh : lookupA st.completed_session_history sid with
    | some c => exact hinv
    | none => exact hinv
  | some s =>
    have hsome : (lookupA st.active_terminal_sessions sid).isSome = true := by
      rw [hs]; rfl
    by_cases hpend : s.newly_available_output_since_last_read = ""
    · rcases hr : read_drain_loop s "" steps with ⟨s1, acc, e⟩
      cases e with
      | got_output =>
        simp only [hpend, if_true, hr]
        exact insert_present_active_preserves st sid s1 hsome hinv
      | completed_event code =>
        simp only [hpend, if_true, hr]
        exact move_session_to_completed_preserves _ sid now
          (insert_present_active_preserves st sid s1 hsome hinv)
      | error_event m =>
        simp only [hpend, if_true, hr]
        exact insert_present_active_preserves st sid s1 hsome hinv
      | completed_flag =>
        simp only [hpend, if_true, hr]
        exact insert_present_active_preserves st sid s1 hsome hinv
      | timed_out =>
        simp only [hpend, if_true, hr]
        exact insert_present_active_preserves st sid s1 hsome hinv
    · simp only [hpend, if_false]
      exact insert_present_active_preserves st sid _ hsome hinv

theorem terminate_preserves (st : Manager) (sid : Nat)
    (termination_exception : Bool) (now : Nat)
    (hinv : manager_registry_invariant st) :
    manager_registry_invariant
      (force_terminate_session_with_cleanup st sid termination_exception now).1 := by
  unfold force_terminate_session_with_cleanup
  cases hs : lookupA st.active_terminal_sessions sid with
  | none => exact hinv
  | some s =>
    by_cases hex : termination_exception
    · simpa [hex] using hinv
    · simpa [hex] using move_session_to_completed_preserves st sid now hinv

theorem apply_manager_operation_preserves (st : Manager) (op : manager_operation)
    (hinv : manager_registry_invariant st) :
    manager_registry_invariant (apply_manager_operation st op) := by
  cases op with
  | start_op e steps now => exact start_preserves st e steps now hinv
  | read_op sid steps now => exact read_preserves st sid steps now hinv
  | terminate_op sid ex now => exact terminate_preserves st sid ex now hinv
  | list_op now => exact hinv

theorem run_manager_operations_invariant (ops : List manager_operation) :
    manager_registry_invariant (run_manager_operations ops) := by
  have key : ∀ (l : List manager_operation) (st : Manager),
      manager_registry_invariant st →
      manager_registry_invariant (l.foldl apply_manager_operation st) := by
    intro l
    induction l with
    | nil => intro st h; exact h
    | cons op rest ih =>
      intro st h
      exact ih _ (apply_manager_operation_preserves st op h)
  exact key ops initial_manager_state initial_manager_state_invariant

/-! ## Branch equations for read and terminate -/

theorem read_not_found_eq (st : Manager) (sid : Nat) (steps : List drain_step)
    (now : Nat) (hs : lookupA st.active_terminal_sessions sid = none)
    (hh : lookupA st.completed_session_history sid = none) :
    read_new_output_from_session_with_timeout st sid steps now =
      (st, ("No session found for ID " ++ toString sid, false)) := by
  simp [read_new_output_from_session_with_timeout, hs, hh]

theorem read_archived_eq (st : Manager) (sid : Nat) (steps : List drain_step)
    (now : Nat) (c : completed_terminal_session_with_full_history)
    (hs : lookupA st.active_terminal_sessions sid = none)
    (hh : lookupA st.completed_session_history sid = some c) :
    read_new_output_from_session_with_timeout st sid steps now =
      (st, (completed_session_summary c, false)) := by
  simp [read_new_output_from_session_with_timeout, hs, hh]

theorem read_pending_eq (st : Manager) (sid : Nat) (steps : List drain_step)
    (now : Nat) (s : terminal_session_with_process_tracking)
    (hs : lookupA st.active_terminal_sessions sid = some s)
    (hp : ¬ s.newly_available_output_since_last_read = "") :
    read_new_output_from_session_with_timeout st sid steps now =
      ({ st with active_terminal_sessions := insertA st.active_terminal_sessions sid ({ s with newly_available_output_since_last_read := "" }) },
       (s.newly_available_output_since_last_read, false)) := by
  simp [read_new_output_from_session_with_timeout, hs, hp]

theorem read_drain_got_output_eq (st : Manager) (sid : Nat)
    (steps : List drain_step) (now : Nat)
    (s s1 : terminal_session_with_process_tracking) (acc : String)
    (hs : lookupA st.active_terminal_sessions sid = some s)
    (hp : s.newly_available_output_since_last_read = "")
    (hr : read_drain_loop s "" steps = (s1, acc, .got_output)) :
    read_new_output_from_session_with_timeout st sid steps now =
      ({ st with active_terminal_sessions :=
           insertA st.active_terminal_sessions sid s1 },
       (acc, false)) := by
  simp [read_new_output_from_session_with_timeout, hs, hp, hr]

theorem read_drain_completed_event_eq (st : Manager) (sid : Nat)
    (steps : List drain_step) (now : Nat)
    (s s1 : terminal_session_with_process_tracking) (acc : String) (code : Int)
    (hs : lookupA st.active_terminal_sessions sid = some s)
    (hp : s.newly_available_output_since_last_read = "")
    (hr : read_drain_loop s "" steps = (s1, acc, .completed_event code)) :
    read_new_output_from_session_with_timeout st sid steps now =
      (move_session_to_completed
         { st with active_terminal_sessions :=
             insertA st.active_terminal_sessions sid s1 } sid now,
       (if acc = "" then "Process completed with exit code " ++ toString code
        else acc, false)) := by
  simp [read_new_output_from_session_with_timeout, hs, hp, hr]

theorem read_drain_error_event_eq (st : Manager) (sid : Nat)
    (steps : List drain_step) (now : Nat)
    (s s1 : terminal_session_with_process_tracking) (acc : String) (m : String)
    (hs : lookupA st.active_terminal_sessions sid = some s)
    (hp : s.newly_available_output_since_last_read = "")
    (hr : read_drain_loop s "" steps = (s1, acc, .error_event m)) :
    read_new_output_from_session_with_timeout st sid steps now =
      ({ st with active_terminal_sessions :=
           insertA st.active_terminal_sessions sid s1 },
       ("Process error: " ++ m, false)) := by
  simp [read_new_output_from_session_with_timeout, hs, hp, hr]

theorem read_drain_completed_flag_eq (st : Manager) (sid : Nat)
    (steps : List drain_step) (now : Nat)
    (s s1 : terminal_session_with_process_tracking) (acc : String)
    (hs : lookupA st.active_terminal_sessions sid = some s)
    (hp : s.newly_available_output_since_last_read = "")
    (hr : read_drain_loop s "" steps = (s1, acc, .completed_flag)) :
    read_new_output_from_session_with_timeout st sid steps now =
      ({ st with active_terminal_sessions :=
           insertA st.active_terminal_sessions sid s1 },
       (if acc = "" then
          "Process completed with exit code " ++
            python_str_of_optional_int s1.last_exit_code
        else acc, false)) := by
  simp [read_new_output_from_session_with_timeout, hs, hp, hr]

theorem read_drain_timed_out_eq (st : Manager) (sid : Nat)
    (steps : List drain_step) (now : Nat)
    (s s1 : terminal_session_with_process_tracking) (acc : String)
    (hs : lookupA st.active_terminal_sessions sid = some s)
    (hp : s.newly_available_output_since_last_read = "")
    (hr : read_drain_loop s "" steps = (s1, acc, .timed_out)) :
    read_new_output_from_session_with_timeout st sid steps now =
      ({ st with active_terminal_sessions :=
           insertA st.active_terminal_sessions sid s1 },
       (if acc = "" then "No new output available" else acc, true)) := by
  simp [read_new_output_from_session_with_timeout, hs, hp, hr]

theorem force_terminate_not_found_eq (st : Manager) (sid : Nat) (ex : Bool)
    (now : Nat) (hs : lookupA st.active_terminal_sessions sid = none) :
    force_terminate_session_with_cleanup st sid ex now = (st, false) := by
  simp [force_terminate_session_with_cleanup, hs]

theorem force_terminate_exception_eq (st : Manager) (sid : Nat) (now : Nat)
    (s : terminal_session_with_process_tracking)
    (hs : lookupA st.active_terminal_sessions sid = some s) :
    force_terminate_session_with_cleanup st sid true now = (st, false) := by
  simp [force_terminate_session_with_cleanup, hs]

theorem force_terminate_success_eq (st : Manager) (sid : Nat) (now : Nat)
    (s : terminal_session_with_process_tracking)
    (hs : lookupA st.active_terminal_sessions sid = some s) :
    force_terminate_session_with_cleanup st sid false now =
      (move_session_to_completed st sid now, true) := by
  simp [force_terminate_session_with_cleanup, hs]

theorem move_removes_active (st : Manager) (sid now : Nat)
    (s : terminal_session_with_process_tracking)
    (hs : lookupA st.active_terminal_sessions sid = some s) :
    lookupA (move_session_to_completed st sid now).active_terminal_sessions sid =
      none := by
  simp [move_session_to_completed, hs, lookupA_eraseA]

theorem move_archives (st : Manager) (sid now : Nat)
    (s : terminal_session_with_process_tracking)
    (hs : lookupA st.active_terminal_sessions sid = some s)
    (hcap : st.completed_session_history.length <
      st.maximum_completed_sessions_to_retain) :
    lookupA (move_session_to_completed st sid now).completed_session_history sid =
      some (completed_session_of sid now s) := by
  have hle := eraseA_length_le st.completed_session_history sid
  have hlen : ¬ st.maximum_completed_sessions_to_retain <
      (insertA st.completed_session_history sid
        (completed_session_of sid now s)).length := by
    simp [insertA]
    omega
  simp [move_session_to_completed, hs, trim_completed_session_history, hlen,
    lookupA_insertA_self]

/-! ## Membership helper lemmas for the list() snapshot -/

theorem mem_eraseA_key_ne {α : Type} (m : List (Nat × α)) (k : Nat) (p : Nat × α)
    (h : p ∈ eraseA m k) : ¬ p.1 = k := by
  induction m with
  | nil => simp [eraseA] at h
  | cons q rest ih =>
    by_cases hq : q.1 = k
    · exact ih (by simpa [eraseA, hq] using h)
    · rcases (by simpa [eraseA, hq] using h : p = q ∨ p ∈ eraseA rest k) with heq | hm
      · subst heq; exact hq
      · exact ih hm

theorem lookupA_none_key_ne {α : Type} (m : List (Nat × α)) (k : Nat) (p : Nat × α)
    (hm : p ∈ m) (h : lookupA m k = none) : ¬ p.1 = k := by
  induction m with
  | nil => simp at hm
  | cons q rest ih =>
    by_cases hq : q.1 = k
    · simp [lookupA, hq] at h
    · rcases (by simpa using hm : p = q ∨ p ∈ rest) with heq | hmem
      · subst heq; exact hq
      · exact ih hmem (by simpa [lookupA, hq] using h)

/-! ## Fine-grained model of the unsynchronized id allocation

`start_command_execution_with_timeout_and_background_support` allocates ids
with the two statements (source lines 430-432)

    session_id = self.next_session_id
    self.next_session_id += 1

on the calling thread, with no lock anywhere in the class.  Two concurrent
callers therefore interleave these statements at Python bytecode
granularity.  The model below embeds exactly this two-statement sequence
for two concurrent callers; a schedule respects program order when the
read of each caller precedes its increment. -/

/-- Shared counter plus the local `session_id` variables of the two callers. -/
structure concurrent_id_allocation_state : Type where
  next_session_id : Nat
  first_caller_session_id : Option Nat
  second_caller_session_id : Option Nat
deriving DecidableEq

/-- One interleaved statement: a caller reads the shared counter into its
local, or writes the incremented value back. -/
inductive id_allocation_step : Type
  | first_reads_counter
  | first_increments_counter
  | second_reads_counter
  | second_increments_counter
deriving DecidableEq

def apply_id_allocation_step (s : concurrent_id_allocation_state) :
    id_allocation_step → concurrent_id_allocation_state
  | .first_reads_counter =>
      { s with first_caller_session_id := some s.next_session_id }
  | .first_increments_counter =>
      { s with next_session_id := s.next_session_id + 1 }
  | .second_reads_counter =>
      { s with second_caller_session_id := some s.next_session_id }
  | .second_increments_counter =>
      { s with next_session_id := s.next_session_id + 1 }

/-- Run a schedule from the initial counter value 1 of the manager, with neither
caller having read yet. -/
def run_id_allocation (sched : List id_allocation_step) :
    concurrent_id_allocation_state :=
  sched.foldl apply_id_allocation_step
    { next_session_id := 1
      first_caller_session_id := none
      second_caller_session_id := none }

/-- A schedule respects per-caller program order when its projection onto
each caller is exactly `read; increment`. -/
def respects_caller_program_order (sched : List id_allocation_step) : Bool :=
  sched.filter (fun a => a = .first_reads_counter ∨ a = .first_increments_counter)
      = [.first_reads_counter, .first_increments_counter] &&
  sched.filter (fun a => a = .second_reads_counter ∨ a = .second_increments_counter)
      = [.second_reads_counter, .second_increments_counter]

/-! ## Result equations for start -/

theorem start_state_eq (st : Manager) (steps : List drain_step) (now : Nat) :
    (start_command_execution_with_timeout_and_background_support
      st none steps now).1 =
    { st with
      next_session_id := st.next_session_id + 1
      active_terminal_sessions :=
        insertA st.active_terminal_sessions st.next_session_id
          (start_drain_loop (fresh_terminal_session st.next_session_id now)
            "" steps).1 } := rfl

theorem start_result_initial_output_eq (st : Manager) (steps : List drain_step)
    (now : Nat) :
    (start_command_execution_with_timeout_and_background_support
      st none steps now).2.initial_output_text =
    (start_drain_loop (fresh_terminal_session st.next_session_id now)
      "" steps).2.1 := by
  rcases hr : start_drain_loop (fresh_terminal_session st.next_session_id now)
      "" steps with ⟨s1, io, oc⟩
  cases oc <;>
    simp [start_command_execution_with_timeout_and_background_support, hr]

theorem start_result_still_eq (st : Manager) (steps : List drain_step)
    (now : Nat) :
    (start_command_execution_with_timeout_and_background_support
      st none steps now).2.command_is_still_running_in_background =
    start_loop_still_running
      (start_drain_loop (fresh_terminal_session st.next_session_id now)
        "" steps) := by
  rcases hr : start_drain_loop (fresh_terminal_session st.next_session_id now)
      "" steps with ⟨s1, io, oc⟩
  cases oc <;>
    simp [start_command_execution_with_timeout_and_background_support,
      start_loop_still_running, hr]

theorem start_result_process_id_eq (st : Manager) (steps : List drain_step)
    (now : Nat) :
    (start_command_execution_with_timeout_and_background_support
      st none steps now).2.process_id = Int.ofNat st.next_session_id := by
  rcases hr : start_drain_loop (fresh_terminal_session st.next_session_id now)
      "" steps with ⟨s1, io, oc⟩
  cases oc <;>
    simp [start_command_execution_with_timeout_and_background_support, hr]

theorem start_result_error_message_eq (st : Manager) (steps : List drain_step)
    (now : Nat) (m : String)
    (hr : (start_drain_loop (fresh_terminal_session st.next_session_id now)
      "" steps).2.2 = start_drain_outcome.errored m) :
    (start_command_execution_with_timeout_and_background_support
      st none steps now).2.error_message = some ("Process error: " ++ m) := by
  rcases hr2 : start_drain_loop (fresh_terminal_session st.next_session_id now)
      "" steps with ⟨s1, io, oc⟩
  rw [hr2] at hr
  cases oc with
  | normal => simp at hr
  | errored m2 =>
    have : m2 = m := by simpa using hr
    subst this
    simp [start_command_execution_with_timeout_and_background_support, hr2]

/-! ## Helper lemmas about the list() snapshot after a read -/

theorem get_list_no_key (st : Manager) (sid : Nat)
    (hs : lookupA st.active_terminal_sessions sid = none) (now2 : Nat)
    (e : session_status_entry)
    (hmem : e ∈ get_list_of_all_active_sessions_with_status st now2)
    (hesid : e.session_id = sid) : False := by
  obtain ⟨p, hp, hpe⟩ := List.mem_map.mp hmem
  have hne := lookupA_none_key_ne st.active_terminal_sessions sid p hp hs
  apply hne
  have : p.1 = e.session_id := by rw [← hpe]
  rw [this, hesid]

theorem get_list_insert_pending_empty (st : Manager) (sid : Nat)
    (s1 : terminal_session_with_process_tracking)
    (h1 : s1.newly_available_output_since_last_read = "")
    (now2 : Nat) (e : session_status_entry)
    (hmem : e ∈ get_list_of_all_active_sessions_with_status
      { st with active_terminal_sessions := insertA st.active_terminal_sessions sid s1 } now2)
    (hesid : e.session_id = sid) :
    e.has_new_output = false := by
  obtain ⟨p, hp, hpe⟩ := List.mem_map.mp hmem
  have hp2 : p = (sid, s1) ∨ p ∈ eraseA st.active_terminal_sessions sid := by
    simpa [insertA] using hp
  rcases hp2 with heq | hm
  · subst heq
    rw [← hpe]
    simp [get_list_of_all_active_sessions_with_status, h1]
  · exfalso
    have hne := mem_eraseA_key_ne st.active_terminal_sessions sid p hm
    apply hne
    have : p.1 = e.session_id := by rw [← hpe]
    rw [this, hesid]

/-! ## Claim theorems -/

/-- C2: for every reachable registry state and every session id, the id is
present in at most one of the active-session map and the completed-session
archive, never both.  Each public operation is one atomic step of the
transition system, so no operation observes an id in both maps. -/
theorem session_id_never_in_both_maps (ops : List manager_operation) (k : Nat) :
    ((lookupA (run_manager_operations ops).active_terminal_sessions k).isSome &&
     (lookupA (run_manager_operations ops).completed_session_history k).isSome)
      = false := by
  have hinv := run_manager_operations_invariant ops
  cases ha : (lookupA (run_manager_operations ops).active_terminal_sessions k).isSome with
  | false => simp [ha]
  | true =>
    have hnone := hinv.disjoint_maps k ha
    simp [ha, hnone]

/-- C3: in every reachable state the completed-session archive holds at most
100 entries, and an insertion that would exceed the retention limit evicts
exactly the entry whose session id is the minimum (hence oldest, since ids
are allocated monotonically) of the archive keys after insertion. -/
theorem archive_capacity_and_lowest_id_eviction :
    (∀ ops : List manager_operation,
      (run_manager_operations ops).completed_session_history.length ≤ 100) ∧
    (∀ (st : Manager) (sid now : Nat) (s : terminal_session_with_process_tracking),
      lookupA st.active_terminal_sessions sid = some s →
      st.maximum_completed_sessions_to_retain <
        (insertA st.completed_session_history sid
          (completed_session_of sid now s)).length →
      (move_session_to_completed st sid now).completed_session_history =
        eraseA
          (insertA st.completed_session_history sid (completed_session_of sid now s))
          (minKeyA (insertA st.completed_session_history sid
            (completed_session_of sid now s))) ∧
      (lookupA (insertA st.completed_session_history sid (completed_session_of sid now s))
        (minKeyA (insertA st.completed_session_history sid
          (completed_session_of sid now s)))).isSome = true ∧
      (∀ k, (lookupA (insertA st.completed_session_history sid
          (completed_session_of sid now s)) k).isSome = true →
        minKeyA (insertA st.completed_session_history sid
          (completed_session_of sid now s)) ≤ k)) := by
  constructor
  · intro ops
    have hinv := run_manager_operations_invariant ops
    have hb := hinv.history_bounded
    rw [hinv.retention_is_100] at hb
    exact hb
  · intro st sid now s hs hcap
    refine ⟨?_, ?_, ?_⟩
    · simp [move_session_to_completed, hs, trim_completed_session_history, hcap]
    · exact minKeyA_lookupA_isSome (sid, completed_session_of sid now s)
        (eraseA st.completed_session_history sid)
    · intro k hk
      exact minKeyA_le _ k hk

/-- A three-session state used to evaluate the eviction clause of the
archive-capacity theorem on concrete data: one active session (id 3), an
archive already at its retention limit (ids 1 and 2, limit 2). -/
def eviction_witness_state : Manager :=
  { active_terminal_sessions := [(3, fresh_terminal_session 3 0)]
    completed_session_history :=
      [(1, completed_session_of 1 0 (fresh_terminal_session 1 0)),
       (2, completed_session_of 2 0 (fresh_terminal_session 2 0))]
    next_session_id := 4
    maximum_completed_sessions_to_retain := 2 }

/-- C3 witness: concrete evaluation of both conjuncts — the empty run, and
archiving session 3 into a full two-entry archive, which evicts id 1. -/
theorem archive_capacity_and_lowest_id_eviction_witness :
    (run_manager_operations []).completed_session_history.length ≤ 100 ∧
    (move_session_to_completed eviction_witness_state 3 9).completed_session_history =
      eraseA
        (insertA eviction_witness_state.completed_session_history 3
          (completed_session_of 3 9 (fresh_terminal_session 3 0)))
        (minKeyA (insertA eviction_witness_state.completed_session_history 3
          (completed_session_of 3 9 (fresh_terminal_session 3 0)))) := by
  refine ⟨archive_capacity_and_lowest_id_eviction.1 [], ?_⟩
  exact (archive_capacity_and_lowest_id_eviction.2 eviction_witness_state 3 9
    (fresh_terminal_session 3 0) (by decide) (by decide)).1

/-- C5: when spawning fails, start() returns the sentinel id -1 with an
error message and changes nothing (no session registered anywhere, no id
consumed); when spawning succeeds, a session is always registered under the
allocated id — so spawn failure is the only way start() produces no
session. -/
theorem spawn_failure_registers_nothing_and_success_registers :
    (∀ (st : Manager) (e : String) (steps : List drain_step) (now : Nat),
      start_command_execution_with_timeout_and_background_support
          st (some e) steps now =
        (st, { process_id := -1
               initial_output_text := ""
               command_is_still_running_in_background := false
               error_message := some ("Failed to execute command: " ++ e) })) ∧
    (∀ (st : Manager) (steps : List drain_step) (now : Nat),
      (lookupA (start_command_execution_with_timeout_and_background_support
          st none steps now).1.active_terminal_sessions
        st.next_session_id).isSome = true ∧
      (start_command_execution_with_timeout_and_background_support
          st none steps now).1.next_session_id = st.next_session_id + 1 ∧
      (start_command_execution_with_timeout_and_background_support
          st none steps now).2.process_id = Int.ofNat st.next_session_id) := by
  constructor
  · intro st e steps now
    rfl
  · intro st steps now
    refine ⟨?_, rfl, start_result_process_id_eq st steps now⟩
    rw [start_state_eq]
    simp [lookupA_insertA_self]

/-- C8: read() on an id known to neither map returns at once with the
informational no-session text and timeoutReached=false, leaves the state
unchanged, and its result does not depend on the drain window or the clock
at all (it never waits for the requested timeout). -/
theorem read_unknown_id_returns_immediately
    (st : Manager) (sid : Nat) (steps1 steps2 : List drain_step)
    (now1 now2 : Nat)
    (hs : lookupA st.active_terminal_sessions sid = none)
    (hh : lookupA st.completed_session_history sid = none) :
    read_new_output_from_session_with_timeout st sid steps1 now1 =
      (st, ("No session found for ID " ++ toString sid, false)) ∧
    read_new_output_from_session_with_timeout st sid steps1 now1 =
      read_new_output_from_session_with_timeout st sid steps2 now2 := by
  refine ⟨read_not_found_eq st sid steps1 now1 hs hh, ?_⟩
  rw [read_not_found_eq st sid steps1 now1 hs hh,
    read_not_found_eq st sid steps2 now2 hs hh]

/-- C8 witness: reading unknown id 999 from the initial state with a
nonempty drain window gives the no-session text, unchanged state, and the
same result as an empty window. -/
theorem read_unknown_id_returns_immediately_witness :
    read_new_output_from_session_with_timeout initial_manager_state 999
        [drain_step.empty_queue none] 0 =
      (initial_manager_state, ("No session found for ID " ++ toString 999, false)) ∧
    read_new_output_from_session_with_timeout initial_manager_state 999
        [drain_step.empty_queue none] 0 =
      read_new_output_from_session_with_timeout initial_manager_state 999 [] 7 :=
  read_unknown_id_returns_immediately initial_manager_state 999
    [drain_step.empty_queue none] [] 0 7 rfl rfl

/-- C9: the id allocation of start() (read the counter, then increment it)
is not protected by any lock; interleaving the two statements of two
concurrent callers in program order can give both callers session id 1,
while the two serialized schedules give distinct ids 1 and 2.  The claimed
coarse lock does not exist in the code. -/
theorem unsynchronized_id_allocation_duplicates_ids :
    respects_caller_program_order
      [id_allocation_step.first_reads_counter,
       id_allocation_step.second_reads_counter,
       id_allocation_step.first_increments_counter,
       id_allocation_step.second_increments_counter] = true ∧
    (run_id_allocation
      [id_allocation_step.first_reads_counter,
       id_allocation_step.second_reads_counter,
       id_allocation_step.first_increments_counter,
       id_allocation_step.second_increments_counter]).first_caller_session_id
        = some 1 ∧
    (run_id_allocation
      [id_allocation_step.first_reads_counter,
       id_allocation_step.second_reads_counter,
       id_allocation_step.first_increments_counter,
       id_allocation_step.second_increments_counter]).second_caller_session_id
        = some 1 ∧
    (run_id_allocation
      [id_allocation_step.first_reads_counter,
       id_allocation_step.first_increments_counter,
       id_allocation_step.second_reads_counter,
       id_allocation_step.second_increments_counter]).first_caller_session_id
        = some 1 ∧
    (run_id_allocation
      [id_allocation_step.first_reads_counter,
       id_allocation_step.first_increments_counter,
       id_allocation_step.second_reads_counter,
       id_allocation_step.second_increments_counter]).second_caller_session_id
        = some 2 := by
  exact ⟨by decide, rfl, rfl, rfl, rfl⟩

/-- C1: counterexample.  Output drained during the initial window of start() is
appended both to the initialOutput of the result and to the pending buffer,
and the first read() returns the pending buffer again: after the process has
produced only "hello", initialOutput is "hello" and the next read() returns
"hello" once more, so the concatenation of the start() and read() outputs is
"hellohello", not the total process output — the chunk is delivered
twice. -/
theorem initial_window_output_is_delivered_twice :
    (start_command_execution_with_timeout_and_background_support
      initial_manager_state none
      [drain_step.recv (output_queue_item.output "hello")] 0).2.initial_output_text
        = "hello" ∧
    (read_new_output_from_session_with_timeout
      (start_command_execution_with_timeout_and_background_support
        initial_manager_state none
        [drain_step.recv (output_queue_item.output "hello")] 0).1
      1 [] 0).2.1 = "hello" ∧
    start_window_output [drain_step.recv (output_queue_item.output "hello")]
        = "hello" ∧
    ("hello" ++ "hello" : String) ≠ "hello" := by
  refine ⟨rfl, rfl, rfl, by decide⟩

/-- C1 (amended): every drained output chunk lands exactly once, in order,
in the accumulated buffer of the session — the start() window returns exactly the
drained chunks as initialOutput and appends them to both buffers, and each
blocking read() drain appends exactly what it returns to the accumulated
buffer — but the first read() after the window re-delivers the pending
buffer (the window output) a second time in addition to initialOutput. -/
theorem output_buffered_exactly_once_per_drained_chunk :
    (∀ (st : Manager) (steps : List drain_step) (now : Nat),
      (start_command_execution_with_timeout_and_background_support
        st none steps now).2.initial_output_text = start_window_output steps ∧
      lookupA (start_command_execution_with_timeout_and_background_support
          st none steps now).1.active_terminal_sessions st.next_session_id =
        some (start_drain_loop (fresh_terminal_session st.next_session_id now)
          "" steps).1 ∧
      (start_drain_loop (fresh_terminal_session st.next_session_id now)
        "" steps).1.accumulated_output_buffer = start_window_output steps ∧
      (start_drain_loop (fresh_terminal_session st.next_session_id now)
        "" steps).1.newly_available_output_since_last_read
          = start_window_output steps) ∧
    (∀ (s : terminal_session_with_process_tracking) (acc : String)
       (steps : List drain_step),
      ∃ X : String,
        (read_drain_loop s acc steps).2.1 = acc ++ X ∧
        (read_drain_loop s acc steps).1.accumulated_output_buffer =
          s.accumulated_output_buffer ++ X) ∧
    (∀ (st : Manager) (sid : Nat) (steps : List drain_step) (now : Nat)
       (s : terminal_session_with_process_tracking),
      lookupA st.active_terminal_sessions sid = some s →
      ¬ s.newly_available_output_since_last_read = "" →
      (read_new_output_from_session_with_timeout st sid steps now).2.1 =
        s.newly_available_output_since_last_read) := by
  refine ⟨?_, ?_, ?_⟩
  · intro st steps now
    obtain ⟨h1, h2, h3⟩ := start_drain_loop_output steps
      (fresh_terminal_session st.next_session_id now) ""
    refine ⟨?_, ?_, ?_, ?_⟩
    · rw [start_result_initial_output_eq, h1]
      exact String.empty_append _
    · rw [start_state_eq]
      exact lookupA_insertA_self _ _ _
    · rw [h2]
      exact String.empty_append _
    · rw [h3]
      exact String.empty_append _
  · intro s acc steps
    exact read_drain_loop_delta steps s acc
  · intro st sid steps now s hs hp
    rw [read_pending_eq st sid steps now s hs hp]

/-- C1 witness: instantiating the pending-buffer clause on the concrete
session started with window output "hello": the first read() returns that
pending buffer. -/
theorem output_buffered_exactly_once_per_drained_chunk_witness :
    (read_new_output_from_session_with_timeout
      (start_command_execution_with_timeout_and_background_support
        initial_manager_state none
        [drain_step.recv (output_queue_item.output "hello")] 0).1
      1 [] 0).2.1 =
    (start_drain_loop (fresh_terminal_session 1 0) ""
      [drain_step.recv (output_queue_item.output "hello")]).1.newly_available_output_since_last_read :=
  output_buffered_exactly_once_per_drained_chunk.2.2
    (start_command_execution_with_timeout_and_background_support
      initial_manager_state none
      [drain_step.recv (output_queue_item.output "hello")] 0).1
    1 [] 0
    (start_drain_loop (fresh_terminal_session 1 0) ""
      [drain_step.recv (output_queue_item.output "hello")]).1
    rfl (by decide)

/-- C4: counterexample.  With an empty queue and a poll that observes the
process has exited (schedule `[empty_queue (some 0)]`), no Completed or
Error event is drained, yet start() sets the completed flag of the session and
returns stillRunning=false — the flag and stillRunning are also driven by
`process.poll()`, not only by queue events. -/
theorem poll_branch_sets_completed_without_event :
    drain_steps_contain_completed_or_error_event
        [drain_step.empty_queue (some 0)] = false ∧
    (start_command_execution_with_timeout_and_background_support
      initial_manager_state none [drain_step.empty_queue (some 0)]
      0).2.command_is_still_running_in_background = false ∧
    (lookupA (start_command_execution_with_timeout_and_background_support
        initial_manager_state none [drain_step.empty_queue (some 0)]
        0).1.active_terminal_sessions 1).map
      (fun s => s.command_execution_has_completed) = some true := by
  refine ⟨rfl, rfl, rfl⟩

/-- C4 (amended): the completed flag of a freshly started session becomes true
during the start() window exactly when the drain observed completion — a
Completed event or an empty-queue poll seeing process exit — and
stillRunning is the negation of "the drain observed any stop": a Completed
event, an Error event, or such a poll.  During a blocking read() the flag is
set only by a Completed event. -/
theorem completed_flag_and_still_running_characterization :
    (∀ (st : Manager) (steps : List drain_step) (now : Nat),
      (start_command_execution_with_timeout_and_background_support
        st none steps now).2.command_is_still_running_in_background =
      !(start_window_observed_stop steps)) ∧
    (∀ (sid now : Nat) (acc : String) (steps : List drain_step),
      (start_drain_loop (fresh_terminal_session sid now) acc
        steps).1.command_execution_has_completed =
      start_window_observed_completion steps) ∧
    (∀ (s : terminal_session_with_process_tracking) (acc : String)
       (steps : List drain_step),
      s.command_execution_has_completed = false →
      (read_drain_loop s acc steps).1.command_execution_has_completed = true →
      drain_steps_contain_completed_event steps = true) := by
  refine ⟨?_, ?_, ?_⟩
  · intro st steps now
    rw [start_result_still_eq]
    exact start_drain_loop_still_running steps
      (fresh_terminal_session st.next_session_id now) "" rfl
  · intro sid now acc steps
    have := start_drain_loop_completed steps (fresh_terminal_session sid now) acc
    simpa [fresh_terminal_session] using this
  · intro s acc steps h1 h2
    exact read_drain_loop_completed_flag steps s acc h1 h2

/-- C4 witness: a blocking read() that drains a Completed event sets the
flag, and indeed the schedule contains a Completed event. -/
theorem completed_flag_and_still_running_characterization_witness :
    drain_steps_contain_completed_event
      [drain_step.recv (output_queue_item.completed 0)] = true :=
  completed_flag_and_still_running_characterization.2.2
    (fresh_terminal_session 1 0) ""
    [drain_step.recv (output_queue_item.completed 0)] rfl rfl

/-- C6: an Error event drained in the start() window is reported in the result
(error message "Process error: <m>") while the session stays registered in
the active map and the archive is untouched; an Error event drained by a
blocking read() is returned immediately as the output with
timeoutReached=false, again leaving the session active and the archive
unchanged. -/
theorem error_event_reported_and_session_stays_active :
    (∀ (st : Manager) (steps : List drain_step) (now : Nat) (m : String),
      (start_drain_loop (fresh_terminal_session st.next_session_id now)
        "" steps).2.2 = start_drain_outcome.errored m →
      (start_command_execution_with_timeout_and_background_support
        st none steps now).2.error_message = some ("Process error: " ++ m) ∧
      (lookupA (start_command_execution_with_timeout_and_background_support
          st none steps now).1.active_terminal_sessions
        st.next_session_id).isSome = true ∧
      (start_command_execution_with_timeout_and_background_support
        st none steps now).1.completed_session_history =
        st.completed_session_history) ∧
    (∀ (st : Manager) (sid : Nat) (steps : List drain_step) (now : Nat)
       (s s1 : terminal_session_with_process_tracking) (acc m : String),
      lookupA st.active_terminal_sessions sid = some s →
      s.newly_available_output_since_last_read = "" →
      read_drain_loop s "" steps = (s1, acc, read_drain_end.error_event m) →
      (read_new_output_from_session_with_timeout st sid steps now).2 =
        ("Process error: " ++ m, false) ∧
      (lookupA (read_new_output_from_session_with_timeout
          st sid steps now).1.active_terminal_sessions sid).isSome = true ∧
      (read_new_output_from_session_with_timeout
        st sid steps now).1.completed_session_history =
        st.completed_session_history) := by
  constructor
  · intro st steps now m hr
    refine ⟨start_result_error_message_eq st steps now m hr, ?_, ?_⟩
    · rw [start_state_eq]
      simp [lookupA_insertA_self]
    · rw [start_state_eq]
  · intro st sid steps now s s1 acc m hs hp hr
    rw [read_drain_error_event_eq st sid steps now s s1 acc m hs hp hr]
    refine ⟨rfl, ?_, rfl⟩
    simp [lookupA_insertA_self]

/-- C6 witness: reading an Error event "boom" on the concrete session 1
returns the error text immediately and the session stays in the active
map. -/
theorem error_event_reported_and_session_stays_active_witness :
    (read_new_output_from_session_with_timeout
      (start_command_execution_with_timeout_and_background_support
        initial_manager_state none [] 0).1
      1 [drain_step.recv (output_queue_item.error "boom")] 0).2 =
      ("Process error: " ++ "boom", false) ∧
    (lookupA (read_new_output_from_session_with_timeout
      (start_command_execution_with_timeout_and_background_support
        initial_manager_state none [] 0).1
      1 [drain_step.recv (output_queue_item.error "boom")]
      0).1.active_terminal_sessions 1).isSome = true := by
  have h := error_event_reported_and_session_stays_active.2
    (start_command_execution_with_timeout_and_background_support
      initial_manager_state none [] 0).1
    1 [drain_step.recv (output_queue_item.error "boom")] 0
    (fresh_terminal_session 1 0) (fresh_terminal_session 1 0) "" "boom"
    rfl rfl rfl
  exact ⟨h.1, h.2.1⟩

/-- C7: counterexample.  A call on a session that is in the active map can
return false: when the kill sequence raises an exception (the `except`
block, source lines 647-649), terminate() returns false and leaves the
session active — so the first call on an active session does not always
return true. -/
theorem terminate_returns_false_on_exception_for_active_session :
    (lookupA (start_command_execution_with_timeout_and_background_support
        initial_manager_state none [] 0).1.active_terminal_sessions 1).isSome
      = true ∧
    force_terminate_session_with_cleanup
      (start_command_execution_with_timeout_and_background_support
        initial_manager_state none [] 0).1 1 true 0 =
      ((start_command_execution_with_timeout_and_background_support
        initial_manager_state none [] 0).1, false) := by
  exact ⟨rfl, rfl⟩

/-- C7 (amended): terminate() on an id not in the active map (including
archived ids) returns false and changes nothing; on an active id, if the
kill sequence completes without an exception the call returns true and
atomically archives the session (removing it from the active map, and — as
long as the archive is below its retention limit — making it retrievable
there), after which every further call on that id returns false and changes
nothing; if the kill sequence raises, the call returns false and leaves the
registration state unchanged. -/
theorem terminate_idempotent_effect_characterization :
    (∀ (st : Manager) (sid : Nat) (ex : Bool) (now : Nat),
      lookupA st.active_terminal_sessions sid = none →
      force_terminate_session_with_cleanup st sid ex now = (st, false)) ∧
    (∀ (st : Manager) (sid now : Nat)
       (s : terminal_session_with_process_tracking),
      lookupA st.active_terminal_sessions sid = some s →
      force_terminate_session_with_cleanup st sid false now =
        (move_session_to_completed st sid now, true) ∧
      lookupA (move_session_to_completed
        st sid now).active_terminal_sessions sid = none ∧
      (st.completed_session_history.length <
          st.maximum_completed_sessions_to_retain →
        (lookupA (move_session_to_completed
          st sid now).completed_session_history sid).isSome = true) ∧
      (∀ (ex2 : Bool) (now2 : Nat),
        force_terminate_session_with_cleanup
          (force_terminate_session_with_cleanup st sid false now).1
          sid ex2 now2 =
        ((force_terminate_session_with_cleanup st sid false now).1, false)) ∧
      force_terminate_session_with_cleanup st sid true now = (st, false)) := by
  constructor
  · exact force_terminate_not_found_eq
  · intro st sid now s hs
    refine ⟨force_terminate_success_eq st sid now s hs,
            move_removes_active st sid now s hs, ?_, ?_,
            force_terminate_exception_eq st sid now s hs⟩
    · intro hcap
      rw [move_archives st sid now s hs hcap]
      rfl
    · intro ex2 now2
      have h1 : (force_terminate_session_with_cleanup st sid false now).1 =
          move_session_to_completed st sid now := by
        rw [force_terminate_success_eq st sid now s hs]
      rw [h1]
      exact force_terminate_not_found_eq _ sid ex2 now2
        (move_removes_active st sid now s hs)

/-- C7 witness: terminating the concrete active session 1 without an
exception succeeds and archives it; terminating unknown id 999 returns
false with no state change. -/
theorem terminate_idempotent_effect_characterization_witness :
    force_terminate_session_with_cleanup
      (start_command_execution_with_timeout_and_background_support
        initial_manager_state none [] 0).1 1 false 3 =
      (move_session_to_completed
        (start_command_execution_with_timeout_and_background_support
          initial_manager_state none [] 0).1 1 3, true) ∧
    force_terminate_session_with_cleanup initial_manager_state 999 false 0 =
      (initial_manager_state, false) :=
  ⟨(terminate_idempotent_effect_characterization.2
      (start_command_execution_with_timeout_and_background_support
        initial_manager_state none [] 0).1 1 3
      (fresh_terminal_session 1 0) rfl).1,
   terminate_idempotent_effect_characterization.1
      initial_manager_state 999 false 0 rfl⟩

/-- C10: a blocking read() drain appends output only to the accumulated
buffer and never touches the pending buffer, and after any read() on a
session the list() snapshot reports hasNewOutput=false for that session —
the pending buffer is written only during the initial start() window. -/
theorem blocking_read_never_sets_pending_output :
    (∀ (s : terminal_session_with_process_tracking) (acc : String)
       (steps : List drain_step),
      (read_drain_loop s acc steps).1.newly_available_output_since_last_read =
        s.newly_available_output_since_last_read) ∧
    (∀ (st : Manager) (sid : Nat) (steps : List drain_step) (now now2 : Nat)
       (e : session_status_entry),
      e ∈ get_list_of_all_active_sessions_with_status
            (read_new_output_from_session_with_timeout st sid steps now).1 now2 →
      e.session_id = sid →
      e.has_new_output = false) := by
  constructor
  · intro s acc steps
    exact read_drain_loop_pending steps s acc
  · intro st sid steps now now2 e hmem hesid
    cases hs : lookupA st.active_terminal_sessions sid with
    | none =>
      cases hh : lookupA st.completed_session_history sid with
      | some c =>
        rw [read_archived_eq st sid steps now c hs hh] at hmem
        exact (get_list_no_key st sid hs now2 e hmem hesid).elim
      | none =>
        rw [read_not_found_eq st sid steps now hs hh] at hmem
        exact (get_list_no_key st sid hs now2 e hmem hesid).elim
    | some s =>
      by_cases hp : s.newly_available_output_since_last_read = ""
      · rcases hr : read_drain_loop s "" steps with ⟨s1, acc, oc⟩
        have hs1 : s1.newly_available_output_since_last_read = "" := by
          have hpre := read_drain_loop_pending steps s ""
          rw [hr] at hpre
          simp at hpre
          rw [hpre]
          exact hp
        cases oc with
        | got_output =>
          rw [read_drain_got_output_eq st sid steps now s s1 acc hs hp hr] at hmem
          exact get_list_insert_pending_empty st sid s1 hs1 now2 e hmem hesid
        | completed_event code =>
          rw [read_drain_completed_event_eq st sid steps now s s1 acc code hs hp hr] at hmem
          have hlook := lookupA_insertA_self st.active_terminal_sessions sid s1
          have hnone := move_removes_active { st with active_terminal_sessions := insertA st.active_terminal_sessions sid s1 } sid now s1 hlook
          exact (get_list_no_key _ sid hnone now2 e hmem hesid).elim
        | error_event m =>
          rw [read_drain_error_event_eq st sid steps now s s1 acc m hs hp hr] at hmem
          exact get_list_insert_pending_empty st sid s1 hs1 now2 e hmem hesid
        | completed_flag =>
          rw [read_drain_completed_flag_eq st sid steps now s s1 acc hs hp hr] at hmem
          exact get_list_insert_pending_empty st sid s1 hs1 now2 e hmem hesid
        | timed_out =>
          rw [read_drain_timed_out_eq st sid steps now s s1 acc hs hp hr] at hmem
          exact get_list_insert_pending_empty st sid s1 hs1 now2 e hmem hesid
      · rw [read_pending_eq st sid steps now s hs hp] at hmem
        exact get_list_insert_pending_empty st sid _ rfl now2 e hmem hesid

/-- C10 witness: after reading session 1 (which clears the pending "hello"),
the concrete list() snapshot still contains session 1 and reports
hasNewOutput=false. -/
theorem blocking_read_never_sets_pending_output_witness :
    (⟨1, false, 0, false, 5⟩ : session_status_entry) ∈
      get_list_of_all_active_sessions_with_status
        (read_new_output_from_session_with_timeout
          (start_command_execution_with_timeout_and_background_support
            initial_manager_state none
            [drain_step.recv (output_queue_item.output "hello")] 0).1
          1 [] 0).1 0 ∧
    (⟨1, false, 0, false, 5⟩ : session_status_entry).has_new_output = false := by
  refine ⟨by decide, ?_⟩
  exact blocking_read_never_sets_pending_output.2
    (start_command_execution_with_timeout_and_background_support
      initial_manager_state none
      [drain_step.recv (output_queue_item.output "hello")] 0).1
    1 [] 0 0 _ (by decide) rfl
